import Mathlib

/-!
Verification of the configuration layer of `mc-server-wrapper`
(`src/mc-server-wrapper/src/config.rs`), shallowly embedded in Lean 4.

The on-disk format is TOML; we model the structured text as a value tree
`Toml` (the spec treats the serialization grammar as an opaque reversible
text format, so the tree is the faithful level of abstraction).  The serde
derives on the Rust structs are embedded as `encode…`/`decode…` functions
following serde semantics: fields are serialized in declaration order,
`Option` fields are skipped when `None`, decoding looks fields up by name,
ignores unknown keys, fails on missing required fields, and unit enum
variants are serialized by their variant NAME (explicit discriminants such
as `Error = 1` in `LevelDef` are ignored by serde; they merely mirror the
definition of `log::Level` as required by `#[serde(remote = ...)]`).
-/

/-- A TOML value tree (the opaque reversible structured text of the spec). -/
inductive Toml where
  | str (s : String)
  | int (n : Int)
  | bool (b : Bool)
  | arr (xs : List Toml)
  | table (kvs : List (String × Toml))

/-- Decode failures, per the spec taxonomy: `Malformed` for text that is not
well-formed structured text (below the value-tree abstraction), and
`SchemaMismatch` for wrong shape / missing fields / out-of-range values. -/
inductive DecodeError where
  | malformed
  | schemaMismatch
deriving DecidableEq

/-- Log levels; embeds `log::Level` as re-declared by `LevelDef` in config.rs. -/
inductive Level where
  | error
  | warn
  | info
  | debug
  | trace
deriving DecidableEq

/-- Embeds the `Minecraft` struct of config.rs.  `memory` is `u16` in Rust;
decoding enforces the 16-bit range. -/
structure Minecraft where
  server_path : String
  memory : Nat
  jvm_flags : Option String
  auto_start : Bool
deriving DecidableEq

/-- Embeds the `Discord` struct of config.rs.  `channel_id` and the admin ids
are `u64` in Rust; decoding enforces the 64-bit range. -/
structure Discord where
  enable_bridge : Bool
  token : String
  channel_id : Nat
  update_status : Bool
  admin_id_list : List Nat
  command_prefix : String
deriving DecidableEq

/-- Embeds the `Logging` struct of config.rs; `self_level` is serialized under
the key `"self"` (serde rename). -/
structure Logging where
  all : Level
  self_level : Level
  discord : Level
deriving DecidableEq

/-- Embeds the `Config` struct of config.rs. -/
structure Config where
  minecraft : Minecraft
  discord : Option Discord
  logging : Logging
deriving DecidableEq

/-- Embeds `impl Default for Minecraft`. -/
def Minecraft.default : Minecraft :=
  { server_path := "./server.jar", memory := 1024, jvm_flags := none,
    auto_start := false }

/-- Embeds `impl Default for Discord`. -/
def Discord.default : Discord :=
  { enable_bridge := true, token := "", channel_id := 0, update_status := true,
    admin_id_list := [], command_prefix := "!mc " }

/-- Embeds `impl Default for Logging`. -/
def Logging.default : Logging :=
  { all := .warn, self_level := .debug, discord := .info }

/-- Embeds `impl Default for Config`. -/
def Config.default : Config :=
  { minecraft := Minecraft.default, discord := some Discord.default,
    logging := Logging.default }

/-! Codec (serde derives + toml), embedded. -/

/-- Serialization of a unit enum variant by serde: the variant name string.
The numeric discriminants of `LevelDef` play no role in the wire format. -/
def encodeLevel : Level → Toml
  | .error => .str "Error"
  | .warn => .str "Warn"
  | .info => .str "Info"
  | .debug => .str "Debug"
  | .trace => .str "Trace"

/-- serde deserialization of a unit enum from toml: only a variant-name string
is accepted; an integer (or anything else) is a schema mismatch. -/
def decodeLevel : Toml → Except DecodeError Level
  | .str s =>
    if s = "Error" then .ok .error
    else if s = "Warn" then .ok .warn
    else if s = "Info" then .ok .info
    else if s = "Debug" then .ok .debug
    else if s = "Trace" then .ok .trace
    else .error .schemaMismatch
  | _ => .error .schemaMismatch

def decodeString : Toml → Except DecodeError String
  | .str s => .ok s
  | _ => .error .schemaMismatch

def decodeBool : Toml → Except DecodeError Bool
  | .bool b => .ok b
  | _ => .error .schemaMismatch

/-- Deserialization of a `u16` field: integer in `0 ..= 65535`. -/
def decodeU16 : Toml → Except DecodeError Nat
  | .int n => if 0 ≤ n ∧ n < 65536 then .ok n.toNat else .error .schemaMismatch
  | _ => .error .schemaMismatch

/-- Deserialization of a `u64` field: nonnegative integer fitting 64 bits. -/
def decodeU64 : Toml → Except DecodeError Nat
  | .int n => if 0 ≤ n ∧ n < 2 ^ 64 then .ok n.toNat else .error .schemaMismatch
  | _ => .error .schemaMismatch

/-- serde field lookup by key name in a decoded table. -/
def lookupKey (kvs : List (String × Toml)) (k : String) : Option Toml :=
  match kvs with
  | [] => none
  | (k', v) :: rest => if k' = k then some v else lookupKey rest k

def encodeMinecraft (m : Minecraft) : Toml :=
  .table ([("server_path", .str m.server_path), ("memory", .int m.memory)]
    ++ (match m.jvm_flags with
        | none => []
        | some f => [("jvm_flags", .str f)])
    ++ [("auto_start", .bool m.auto_start)])

def decodeMinecraft : Toml → Except DecodeError Minecraft
  | .table kvs => do
    let sp ← match lookupKey kvs "server_path" with
      | some v => decodeString v
      | none => .error .schemaMismatch
    let mem ← match lookupKey kvs "memory" with
      | some v => decodeU16 v
      | none => .error .schemaMismatch
    let jf ← match lookupKey kvs "jvm_flags" with
      | some v => Except.map some (decodeString v)
      | none => .ok none
    let as ← match lookupKey kvs "auto_start" with
      | some v => decodeBool v
      | none => .error .schemaMismatch
    .ok { server_path := sp, memory := mem, jvm_flags := jf, auto_start := as }
  | _ => .error .schemaMismatch

def encodeDiscord (d : Discord) : Toml :=
  match d with
  | ⟨eb, tok, cid, us, ail, cp⟩ =>
    .table [("enable_bridge", .bool eb), ("token", .str tok),
      ("channel_id", .int cid), ("update_status", .bool us),
      ("admin_id_list", .arr (ail.map (fun n : Nat => .int n))),
      ("command_prefix", .str cp)]

def decodeU64List : List Toml → Except DecodeError (List Nat)
  | [] => .ok []
  | v :: rest => do
    let n ← decodeU64 v
    let ns ← decodeU64List rest
    .ok (n :: ns)

def decodeDiscord : Toml → Except DecodeError Discord
  | .table kvs => do
    let eb ← match lookupKey kvs "enable_bridge" with
      | some v => decodeBool v
      | none => .error .schemaMismatch
    let tok ← match lookupKey kvs "token" with
      | some v => decodeString v
      | none => .error .schemaMismatch
    let cid ← match lookupKey kvs "channel_id" with
      | some v => decodeU64 v
      | none => .error .schemaMismatch
    let us ← match lookupKey kvs "update_status" with
      | some v => decodeBool v
      | none => .error .schemaMismatch
    let ail ← match lookupKey kvs "admin_id_list" with
      | some (.arr xs) => decodeU64List xs
      | some _ => .error .schemaMismatch
      | none => .error .schemaMismatch
    let cp ← match lookupKey kvs "command_prefix" with
      | some v => decodeString v
      | none => .error .schemaMismatch
    .ok { enable_bridge := eb, token := tok, channel_id := cid,
          update_status := us, admin_id_list := ail, command_prefix := cp }
  | _ => .error .schemaMismatch

def encodeLogging (l : Logging) : Toml :=
  .table [("all", encodeLevel l.all), ("self", encodeLevel l.self_level),
    ("discord", encodeLevel l.discord)]

def decodeLogging : Toml → Except DecodeError Logging
  | .table kvs => do
    let a ← match lookupKey kvs "all" with
      | some v => decodeLevel v
      | none => .error .schemaMismatch
    let s ← match lookupKey kvs "self" with
      | some v => decodeLevel v
      | none => .error .schemaMismatch
    let d ← match lookupKey kvs "discord" with
      | some v => decodeLevel v
      | none => .error .schemaMismatch
    .ok { all := a, self_level := s, discord := d }
  | _ => .error .schemaMismatch

/-- Embeds `toml::to_string(self)` at the value-tree level: serde serialization of
`Config`; the optional `discord` section is omitted when `None`. -/
def encodeConfig (c : Config) : Toml :=
  .table ([("minecraft", encodeMinecraft c.minecraft)]
    ++ (match c.discord with
        | none => []
        | some d => [("discord", encodeDiscord d)])
    ++ [("logging", encodeLogging c.logging)])

/-- Embeds `toml::from_str` at the value-tree level: serde deserialization of
`Config`; the missing optional `discord` key yields `None`. -/
def decodeConfig : Toml → Except DecodeError Config
  | .table kvs => do
    let m ← match lookupKey kvs "minecraft" with
      | some v => decodeMinecraft v
      | none => .error .schemaMismatch
    let d ← match lookupKey kvs "discord" with
      | some v => Except.map some (decodeDiscord v)
      | none => .ok none
    let l ← match lookupKey kvs "logging" with
      | some v => decodeLogging v
      | none => .error .schemaMismatch
    .ok { minecraft := m, discord := d, logging := l }
  | _ => .error .schemaMismatch

/-! Override Merger. -/

/-- The CLI override structure, opaque to this core; config.rs uses exactly
the fields `bridge_to_discord` and `server_path` of `crate::Opt`. -/
structure Opt where
  bridge_to_discord : Bool
  server_path : Option String

/-- The single merge failure of `Config::merge_in_args` (the `anyhow!` about
enabling the Discord bridge without a configured bridge section). -/
inductive MergeError where
  | missingPrerequisite
deriving DecidableEq

/-- Embeds `Config::merge_in_args`.  The Rust function mutates `&mut self` and
returns `Result<(), _>`; we return the possibly-updated config alongside the
result, so the error case returns the untouched input (the Rust early return
happens before any mutation and before the server-path override). -/
def Config.merge_in_args (c : Config) (args : Opt) : Except MergeError Unit × Config :=
  if args.bridge_to_discord then
    match c.discord with
    | some d =>
      let c' : Config := { c with discord := some { d with enable_bridge := true } }
      match args.server_path with
      | some p => (.ok (), { c' with minecraft := { c'.minecraft with server_path := p } })
      | none => (.ok (), c')
    | none => (.error .missingPrerequisite, c)
  else
    match args.server_path with
    | some p => (.ok (), { c with minecraft := { c.minecraft with server_path := p } })
    | none => (.ok (), c)

/-- Configs producible by `Config::default` followed by zero or more
successful merges (the spec's reachable set for the round-trip law). -/
inductive Reachable : Config → Prop
  | base : Reachable Config.default
  | step {c c' : Config} (args : Opt) : Reachable c →
      c.merge_in_args args = (.ok (), c') → Reachable c'

/-! Loader/Store over a filesystem model.

The filesystem is a map from paths to file states; a present file is either
readable with some structured-text content, or unreadable (open/read failure,
e.g. permissions or invalid UTF-8 — both surface as I/O errors in config.rs).
`writable` says whether `File::create` + `write_all` succeed at a path. -/

inductive FileState where
  | readable (content : Toml)
  | unreadable

structure World where
  files : String → Option FileState
  writable : String → Bool

/-- The loader's error taxonomy: `anyhow` contexts in config.rs distinguish
open/read failures ("Failed to open/read config file at {path}") from parse
failures ("Failed to parse config file at {path}"); both carry the path. -/
inductive ConfigError where
  | ioError (path : String)
  | decodeError (path : String) (e : DecodeError)
deriving DecidableEq

/-- Embeds `Config::store`: create/truncate the destination and write the
encoded document; any create/write failure is an I/O error with the path. -/
def Config.store (c : Config) (w : World) (path : String) :
    World × Except ConfigError Unit :=
  if w.writable path then
    ({ w with files := fun p => if p = path then some (.readable (encodeConfig c))
                                else w.files p },
     .ok ())
  else
    (w, .error (.ioError path))

/-- Embeds `Config::load`: if no file exists at `path`, store the default
config (propagating any store failure) and return it; otherwise open and read
the file (I/O errors propagated with the path) and decode it (decode errors
propagated with the path).  The existing-file branch never writes. -/
def Config.load (w : World) (path : String) :
    World × Except ConfigError Config :=
  match w.files path with
  | none =>
    let r := Config.default.store w path
    match r.2 with
    | .ok _ => (r.1, .ok Config.default)
    | .error e => (r.1, .error e)
  | some .unreadable => (w, .error (.ioError path))
  | some (.readable v) =>
    match decodeConfig v with
    | .ok c => (w, .ok c)
    | .error e => (w, .error (.decodeError path e))

/-! Change Watcher Bridge.

`Config::setup_watcher` spawns a dedicated thread and synchronously returns
the consumer endpoint of a `tokio::mpsc::channel(8)` — its return type is
`mpsc::Receiver<DebouncedEvent>`, with no `Result`: no setup error can reach
the caller.  Inside the thread, `notify::watcher(tx, 300ms).unwrap()` and
`watcher.watch(path, NonRecursive).unwrap()` panic the worker thread when the
watch primitive cannot attach.  Each received debounced event is forwarded by
`handle.spawn(async { sender_clone.send(event).await.unwrap() })`: a
fire-and-forget task that panics if the consumer endpoint was dropped.  We
embed the thread's and each spawned task's fate as explicit outcome values,
parameterized by whether the watch primitive can attach and whether the
consumer endpoint is still alive. -/

/-- The debounced filesystem events of the `notify` crate (the spec's
`ChangeEvent` kinds). -/
inductive DebouncedEvent where
  | create (path : String)
  | write (path : String)
  | remove (path : String)
  | rename (from_path : String) (to_path : String)
  | rescan
  | watchError
deriving DecidableEq

/-- Fate of the dedicated watcher thread after `setup_watcher` runs it. -/
inductive WorkerState where
  | watching
  | panickedOnWatch
deriving DecidableEq

/-- What `setup_watcher` gives back: always a receiver of capacity 8 plus the
(caller-invisible) fate of the worker thread.  There is no error component —
the Rust signature has none. -/
structure WatcherResult where
  receiver_capacity : Nat
  worker : WorkerState
deriving DecidableEq

/-- Embeds `Config::setup_watcher`: unconditionally returns the receiving end
of a bounded channel of capacity 8; the worker thread panics (via `unwrap`)
when the watch primitive cannot attach to the path, and otherwise loops. -/
def Config.setup_watcher (_ : Config) (attachOk : Bool) : WatcherResult :=
  { receiver_capacity := 8,
    worker := if attachOk then .watching else .panickedOnWatch }

/-- Fate of one spawned forwarding task. -/
inductive TaskOutcome where
  | sent
  | panicked
deriving DecidableEq

/-- Embeds the body of the spawned forwarding task:
`sender_clone.send(event).await.unwrap()` — succeeds while the consumer
endpoint is alive, panics (unwrap on `SendError`) once it has been dropped. -/
def forwardTask (consumerAlive : Bool) (_ : DebouncedEvent) : TaskOutcome :=
  if consumerAlive then .sent else .panicked

/-- Embeds the watcher thread's loop over a finite prefix of debounced
events: each event spawns an independent forwarding task (fire-and-forget:
the loop never observes a task's fate and keeps going). -/
def watcherLoop (consumerAlive : Bool) : List DebouncedEvent → List TaskOutcome
  | [] => []
  | e :: es => forwardTask consumerAlive e :: watcherLoop consumerAlive es

/-! Concrete inputs used by the witness and counterexample theorems below. -/

/-- A config file content whose `memory` value (70000) is not representable
as an unsigned 16-bit integer. -/
def overMemoryToml : Toml :=
  .table [("minecraft", .table [("server_path", .str "./server.jar"),
            ("memory", .int 70000), ("auto_start", .bool false)]),
          ("logging", .table [("all", .str "Warn"), ("self", .str "Debug"),
            ("discord", .str "Info")])]

/-- A settings document whose bridge (discord) section is absent. -/
def noBridgeConfig : Config :=
  { minecraft := Minecraft.default, discord := none, logging := Logging.default }

/-- An empty filesystem in which every path is writable. -/
def w5good : World := { files := fun _ => none, writable := fun _ => true }

/-- An empty filesystem in which no path is writable. -/
def w5bad : World := { files := fun _ => none, writable := fun _ => false }

/-- A filesystem holding a valid config file at path "cfg". -/
def w6 : World :=
  { files := fun p => if p = "cfg" then some (.readable (encodeConfig Config.default))
             else none,
    writable := fun _ => true }

/-- A filesystem with an unreadable file at "a" and a file whose `memory`
value overflows `u16` at "b". -/
def w9 : World :=
  { files := fun p => if p = "a" then some .unreadable
             else if p = "b" then some (.readable overMemoryToml) else none,
    writable := fun _ => true }

/-! Helper lemmas about the codec and the merger. -/

theorem decodeLevel_encodeLevel (l : Level) : decodeLevel (encodeLevel l) = .ok l := by
  cases l <;> rfl

theorem decodeU16_int (n : Nat) (h : n < 65536) : decodeU16 (.int n) = .ok n := by
  simp only [decodeU16]
  rw [if_pos ⟨Int.ofNat_nonneg n, by exact_mod_cast h⟩]
  simp

theorem decodeU64_int (n : Nat) (h : n < 2 ^ 64) : decodeU64 (.int n) = .ok n := by
  simp only [decodeU64]
  rw [if_pos ⟨Int.ofNat_nonneg n, by exact_mod_cast h⟩]
  simp

theorem decodeU64List_roundtrip (l : List Nat) (h : ∀ x ∈ l, x < 2 ^ 64) :
    decodeU64List (l.map (fun n : Nat => .int n)) = .ok l := by
  induction l with
  | nil => rfl
  | cons x xs ih =>
    simp only [List.map_cons, decodeU64List,
      decodeU64_int x (h x (List.mem_cons_self x xs)),
      ih (fun y hy => h y (List.mem_cons_of_mem _ hy))]
    rfl

theorem decodeMinecraft_roundtrip (m : Minecraft) (h : m.memory < 65536) :
    decodeMinecraft (encodeMinecraft m) = .ok m := by
  obtain ⟨sp, mem, jf, as⟩ := m
  cases jf <;>
    simp [encodeMinecraft, decodeMinecraft, lookupKey, decodeString, decodeBool,
      decodeU16_int mem h] <;>
    rfl

theorem decodeDiscord_roundtrip (d : Discord) (hc : d.channel_id < 2 ^ 64)
    (ha : ∀ x ∈ d.admin_id_list, x < 2 ^ 64) :
    decodeDiscord (encodeDiscord d) = .ok d := by
  obtain ⟨eb, tok, cid, us, ail, cp⟩ := d
  simp [encodeDiscord, decodeDiscord, lookupKey, decodeString, decodeBool,
    decodeU64_int cid hc, decodeU64List_roundtrip ail ha]
  rfl

theorem decodeLogging_roundtrip (l : Logging) :
    decodeLogging (encodeLogging l) = .ok l := by
  obtain ⟨a, s, d⟩ := l
  simp [encodeLogging, decodeLogging, lookupKey, decodeLevel_encodeLevel]
  rfl

theorem decodeConfig_roundtrip (c : Config) (hm : c.minecraft.memory < 65536)
    (hc : ∀ d ∈ c.discord, d.channel_id < 2 ^ 64)
    (ha : ∀ d ∈ c.discord, ∀ x ∈ d.admin_id_list, x < 2 ^ 64) :
    decodeConfig (encodeConfig c) = .ok c := by
  obtain ⟨m, dop, l⟩ := c
  cases dop with
  | none =>
    simp [encodeConfig, decodeConfig, lookupKey, decodeMinecraft_roundtrip m hm,
      decodeLogging_roundtrip l]
    rfl
  | some d =>
    simp [encodeConfig, decodeConfig, lookupKey, decodeMinecraft_roundtrip m hm,
      decodeLogging_roundtrip l,
      decodeDiscord_roundtrip d (hc d rfl) (ha d rfl)]
    rfl

/-- The merger never changes `memory`, and either leaves the discord section
untouched or only switches its `enable_bridge` flag on. -/
theorem merge_in_args_preserves (c : Config) (args : Opt) :
    ((c.merge_in_args args).2).minecraft.memory = c.minecraft.memory ∧
    (((c.merge_in_args args).2).discord = c.discord ∨
      ∃ d, c.discord = some d ∧
        ((c.merge_in_args args).2).discord = some { d with enable_bridge := true }) := by
  obtain ⟨m, dop, l⟩ := c
  obtain ⟨b, spo⟩ := args
  cases b <;> cases dop <;> cases spo <;> simp [Config.merge_in_args]

/-- Every reachable config has its integer fields inside the wire bounds. -/
theorem reachable_wire_bounds (c : Config) (h : Reachable c) :
    c.minecraft.memory < 65536 ∧
    ∀ d ∈ c.discord, d.channel_id < 2 ^ 64 ∧ ∀ x ∈ d.admin_id_list, x < 2 ^ 64 := by
  induction h with
  | base =>
    refine ⟨by norm_num [Config.default, Minecraft.default], ?_⟩
    intro d hd
    simp [Config.default, Option.mem_def] at hd
    subst hd
    refine ⟨by norm_num [Discord.default], by simp [Discord.default]⟩
  | step args hr hmerge ih =>
    rename_i cprev c'
    have hp := merge_in_args_preserves cprev args
    rw [hmerge] at hp
    refine ⟨hp.1 ▸ ih.1, ?_⟩
    rcases hp.2 with heq | ⟨d, hd, heq⟩
    · intro d' hd'
      exact ih.2 d' (by rw [← heq]; exact hd')
    · intro d' hd'
      rw [heq, Option.mem_def, Option.some_inj] at hd'
      subst hd'
      have := ih.2 d (by rw [hd]; rfl)
      exact ⟨this.1, this.2⟩

/-! The claims. -/

/-- Claim C1, counterexample: encoding `LogLevel::Trace` does NOT produce the
integer 5, and decoding the integer 1 does NOT produce `LogLevel::Error`.
The serde derive on the unit enum `LevelDef` serializes by variant name; the
explicit discriminants `Error = 1 … Trace = 5` merely mirror `log::Level`'s
definition (required by `serde(remote)`) and are ignored by serde. -/
theorem c1_counterexample :
    encodeLevel Level.trace ≠ Toml.int 5 ∧
    decodeLevel (Toml.int 1) ≠ Except.ok Level.error :=
  ⟨(fun h => nomatch h), (fun h => nomatch h)⟩

/-- Claim C1, amended: log levels use a fixed string wire mapping by variant
name: encoding `LogLevel::Trace` produces the string "Trace", decoding the
string "Error" produces `LogLevel::Error`, decoding ANY integer (1 as well as
0 or 6) fails with a SchemaMismatch decode error, and decoding is a left
inverse of encoding on every level. -/
theorem c1_level_wire_format :
    encodeLevel Level.trace = Toml.str "Trace" ∧
    decodeLevel (Toml.str "Error") = .ok Level.error ∧
    (∀ n : Int, decodeLevel (Toml.int n) = .error .schemaMismatch) ∧
    (∀ l : Level, decodeLevel (encodeLevel l) = .ok l) :=
  ⟨rfl, rfl, (fun _ => rfl), decodeLevel_encodeLevel⟩

/-- Claim C2, counterexample: when the watch primitive cannot attach
(attachOk = false), `setup_watcher` does NOT return a setup error to the
caller: its return type (`mpsc::Receiver<DebouncedEvent>`, embedded as
`WatcherResult`) has no error component, it still hands back a capacity-8
receiver synchronously, and the spawned worker thread panics on the
`unwrap`. -/
theorem c2_counterexample :
    Config.default.setup_watcher false =
      { receiver_capacity := 8, worker := .panickedOnWatch } := rfl

/-- Claim C2, amended: `setup_watcher` always returns a capacity-8 receiver
synchronously, whether or not the watch primitive can attach; attach failure
is observable only as a panic of the dedicated worker thread (the stream then
never yields events), never as a typed setup error to the caller. -/
theorem c2_watcher_no_sync_error (c : Config) (attachOk : Bool) :
    (c.setup_watcher attachOk).receiver_capacity = 8 ∧
    ((c.setup_watcher attachOk).worker = .panickedOnWatch ↔ attachOk = false) := by
  cases attachOk <;> simp [Config.setup_watcher]

/-- Claim C3: merging with `enable_bridge = true` into a document whose
bridge (discord) section is absent fails with the missing-prerequisite error
and returns the document completely unchanged — no bridge section is created
and a simultaneously-supplied server-path override is not applied. -/
theorem c3_merge_missing_prerequisite (c : Config) (args : Opt)
    (hd : c.discord = none) (hb : args.bridge_to_discord = true) :
    c.merge_in_args args = (.error .missingPrerequisite, c) := by
  simp [Config.merge_in_args, hb, hd]

/-- Witness for C3 at a concrete document and overrides (with a server-path
override supplied alongside the bridge flag). -/
theorem c3_witness :
    noBridgeConfig.merge_in_args ⟨true, some "/x/y.jar"⟩ =
      (.error .missingPrerequisite, noBridgeConfig) :=
  c3_merge_missing_prerequisite noBridgeConfig ⟨true, some "/x/y.jar"⟩ rfl rfl

/-- Claim C4: for every settings document reachable via `default()` followed
by zero or more successful merges, decode ∘ encode is the identity (the
round-trip law on the reachable set). -/
theorem c4_roundtrip (c : Config) (h : Reachable c) :
    decodeConfig (encodeConfig c) = .ok c := by
  have hb := reachable_wire_bounds c h
  exact decodeConfig_roundtrip c hb.1 (fun d hd => (hb.2 d hd).1)
    (fun d hd => (hb.2 d hd).2)

/-- Witness for C4 at the default document. -/
theorem c4_witness : decodeConfig (encodeConfig Config.default) = .ok Config.default :=
  c4_roundtrip Config.default Reachable.base

/-- Claim C5: `load` on a path with no file returns `default()` and persists
it (afterwards the path holds the encoded default, which decodes back to an
equal document); a failure to persist the default is propagated as an I/O
error, never swallowed. -/
theorem c5_first_run_materialization (w : World) (path : String)
    (hnone : w.files path = none) :
    (w.writable path = true →
      (Config.load w path).2 = .ok Config.default ∧
      (Config.load w path).1.files path = some (.readable (encodeConfig Config.default)) ∧
      decodeConfig (encodeConfig Config.default) = .ok Config.default) ∧
    (w.writable path = false →
      Config.load w path = (w, .error (.ioError path))) := by
  constructor
  · intro hw
    refine ⟨?_, ?_, rfl⟩ <;> simp [Config.load, Config.store, hnone, hw]
  · intro hw
    simp [Config.load, Config.store, hnone, hw]

/-- Witness for C5 on concrete empty filesystems, one writable and one not. -/
theorem c5_witness :
    ((Config.load w5good "cfg").2 = .ok Config.default ∧
      (Config.load w5good "cfg").1.files "cfg" =
        some (.readable (encodeConfig Config.default)) ∧
      decodeConfig (encodeConfig Config.default) = .ok Config.default) ∧
    Config.load w5bad "cfg" = (w5bad, .error (.ioError "cfg")) :=
  ⟨(c5_first_run_materialization w5good "cfg" rfl).1 rfl,
   (c5_first_run_materialization w5bad "cfg" rfl).2 rfl⟩

/-- Claim C6: `load` on a path where a file exists (readable or not) leaves
the whole filesystem — in particular that file's content — unchanged; default
materialization happens only when no file exists. -/
theorem c6_no_overwrite (w : World) (path : String) (fs : FileState)
    (hex : w.files path = some fs) : (Config.load w path).1 = w := by
  cases fs with
  | unreadable => simp [Config.load, hex]
  | readable v =>
    simp only [Config.load, hex]
    split <;> rfl

/-- Witness for C6 on a concrete filesystem holding a valid config file. -/
theorem c6_witness : (Config.load w6 "cfg").1 = w6 :=
  c6_no_overwrite w6 "cfg" (.readable (encodeConfig Config.default)) rfl

/-- Claim C7: merging with `server_executable_path = Some p` (and no bridge
flag) sets exactly `minecraft.server_path` to `p` and changes no other field;
with the override absent, `server_path` is left unchanged whatever the bridge
flag is. -/
theorem c7_merge_server_path (c : Config) (p : String) :
    c.merge_in_args ⟨false, some p⟩ =
      (.ok (), { c with minecraft := { c.minecraft with server_path := p } }) ∧
    ∀ b : Bool, ((c.merge_in_args ⟨b, none⟩).2).minecraft.server_path =
      c.minecraft.server_path := by
  refine ⟨rfl, ?_⟩
  intro b
  obtain ⟨m, dop, l⟩ := c
  cases b <;> cases dop <;> rfl

/-- Claim C8, counterexample: a forwarding attempt into a dropped consumer is
NOT swallowed — the spawned forwarding task `unwrap`s the failed send and
panics. -/
theorem c8_counterexample :
    forwardTask false (.write "cfg.toml") = .panicked ∧
    forwardTask false (.write "cfg.toml") ≠ .sent :=
  ⟨rfl, (fun h => nomatch h)⟩

/-- Claim C8, amended: once the consumer endpoint is dropped, every
forwarding task panics on its `unwrap` of the failed send; the panics are
confined to those fire-and-forget tasks, so the watcher thread's loop is
unaffected and still spawns one forwarding attempt per subsequent event
(while the consumer is alive every forward succeeds). -/
theorem c8_forward_panic_loop_continues (es : List DebouncedEvent) :
    watcherLoop false es = es.map (fun _ => .panicked) ∧
    (watcherLoop false es).length = es.length ∧
    (∀ e, forwardTask true e = .sent) := by
  induction es with
  | nil => exact ⟨rfl, rfl, (fun _ => rfl)⟩
  | cons e es ih =>
    refine ⟨?_, ?_, (fun _ => rfl)⟩ <;> simp [watcherLoop, forwardTask, ih.1]

/-- Claim C9: on an existing file, `load` propagates open/read failures and
decode failures as the two distinct error variants (`ioError` vs
`decodeError`), each carrying the offending path; a file whose `memory` value
is not representable as `u16` fails with a SchemaMismatch decode error; and
the two variants are never equal. -/
theorem c9_load_error_variants (w : World) (path : String) :
    (w.files path = some .unreadable →
      Config.load w path = (w, .error (.ioError path))) ∧
    (∀ v e, w.files path = some (.readable v) → decodeConfig v = .error e →
      Config.load w path = (w, .error (.decodeError path e))) ∧
    decodeConfig overMemoryToml = .error .schemaMismatch ∧
    (∀ p e', ConfigError.ioError p ≠ ConfigError.decodeError p e') := by
  refine ⟨fun hu => by simp [Config.load, hu],
    fun v e hv he => by simp [Config.load, hv, he],
    rfl,
    fun p e' h => nomatch h⟩

/-- Witness for C9 on a concrete filesystem: an unreadable file at "a" and a
`memory`-overflow file at "b". -/
theorem c9_witness :
    Config.load w9 "a" = (w9, .error (.ioError "a")) ∧
    Config.load w9 "b" = (w9, .error (.decodeError "b" .schemaMismatch)) :=
  ⟨(c9_load_error_variants w9 "a").1 rfl,
   (c9_load_error_variants w9 "b").2.1 overMemoryToml .schemaMismatch rfl rfl⟩

/-- Claim C10: `default()` has a present bridge (discord) section with
`enable_bridge` already true, an empty credential token and `channel_id` 0;
consequently merging with `enable_bridge = true` on a freshly-defaulted
document succeeds and leaves it equal to the default. -/
theorem c10_default_discord :
    Config.default.discord = some Discord.default ∧
    Discord.default.enable_bridge = true ∧
    Discord.default.token = "" ∧
    Discord.default.channel_id = 0 ∧
    Config.default.merge_in_args ⟨true, none⟩ = (.ok (), Config.default) :=
  ⟨rfl, rfl, rfl, rfl, rfl⟩
